import Mathlib

/-!
Verification of the OLA RDM `StringMessageBuilder` / `MessagePrinter` pair:
a schema-driven text-to-typed-message builder (tokens + descriptor →
typed message or error) and the canonical text renderer.

The repository snapshot holds only the test fixture
(`common/rdm/StringMessageBuilderTest.cpp`); the builder, descriptor,
message and printer implementations are modelled from the design
specification (see the doc comment of each definition).
-/

namespace OlaRdm

/-! ## Decimal digits -/

/-- Value of a list of decimal digit characters, most significant first. -/
def digitsVal (cs : List Char) : Nat :=
  cs.foldl (fun a c => 10 * a + (c.toNat - 48)) 0

/-- The character of the decimal digit `m` (for `m < 10`). -/
def decDigitChar (m : Nat) : Char := Char.ofNat (48 + m)

/-- Decimal digit characters of `n`, most significant first; `fuel`
bounds the recursion (`n < fuel` suffices). -/
def natDigitsAux : Nat → Nat → List Char
  | 0, _ => []
  | fuel + 1, n =>
    if n < 10 then [decDigitChar n]
    else natDigitsAux fuel (n / 10) ++ [decDigitChar (n % 10)]

/-- Canonical base-10 rendering of a natural number. -/
def natDecimal (n : Nat) : String := ⟨natDigitsAux (n + 1) n⟩

/-- Modelled from the spec: canonical integer text is "plain base-10,
including a leading `-` for negatives" (§4.2). -/
def intDecimal (v : Int) : String :=
  if v < 0 then "-" ++ natDecimal (-v).toNat else natDecimal v.toNat

/-- Modelled from the spec: integer tokens "parse as a base-10
signed/unsigned integer", failing on non-numeric text (§4.1).  An
optional leading `-` followed by a nonempty run of decimal digits. -/
def parseDecimal (s : String) : Option Int :=
  match s.data with
  | [] => none
  | c :: cs =>
    if c = '-' then
      if cs ≠ [] ∧ cs.all Char.isDigit then some (-(digitsVal cs : Int)) else none
    else
      if (c :: cs).all Char.isDigit then some ((digitsVal (c :: cs) : Int)) else none

/-! ## Case-insensitive boolean literals -/

/-- ASCII lower-casing of one character. -/
def lowerChar (c : Char) : Char :=
  if 65 ≤ c.toNat ∧ c.toNat ≤ 90 then Char.ofNat (c.toNat + 32) else c

/-- ASCII lower-casing of a token, as a character list. -/
def lowerStr (s : String) : List Char := s.data.map lowerChar

/-- Modelled from the spec: a Bool field "accepts, case-insensitively,
the literal \"true\"/\"false\" or the literal \"1\"/\"0\"; all other
text fails" (§4.1). -/
def parseBool (s : String) : Option Bool :=
  if lowerStr s = "true".data ∨ lowerStr s = "1".data then some true
  else if lowerStr s = "false".data ∨ lowerStr s = "0".data then some false
  else none

/-! ## Schema data model -/

/-- Modelled from the spec: the closed field-kind variant set (§3):
Bool; UInt8/16/32; Int8/16/32; String with length bounds; Group with a
child schema and min/max repeat counts.  Each field carries its name
(the C++ `FieldDescriptor` subclasses). -/
inductive FieldDescriptor where
  | boolField (name : String)
  | uint8Field (name : String)
  | uint16Field (name : String)
  | uint32Field (name : String)
  | int8Field (name : String)
  | int16Field (name : String)
  | int32Field (name : String)
  | stringField (name : String) (minLength maxLength : Nat)
  | groupField (name : String) (children : List FieldDescriptor)
      (minRepeat maxRepeat : Nat)
  deriving Repr

/-- Modelled from the spec: a Message Schema is a name plus an ordered
sequence of field entries (§3); the C++ `Descriptor`. -/
structure Descriptor where
  name : String
  fields : List FieldDescriptor

/-! ## Message data model -/

/-- Modelled from the spec: the Field Value variant set mirroring the
field kinds (§3) — Bool, an integer widened to a canonical
representation tagged with its original width and signedness, String,
and Group holding the ordered sequence of its repeated instances, each
an ordered sequence of Field Values. -/
inductive MessageField where
  | boolValue (name : String) (b : Bool)
  | intValue (name : String) (width : Nat) (signed : Bool) (v : Int)
  | stringValue (name : String) (s : String)
  | groupValue (name : String) (instances : List (List MessageField))
  deriving Repr

/-- A Message: the ordered sequence of top-level Field Values. -/
abbrev Message := List MessageField

/-- Number of top-level Field Values in a message (C++ `FieldCount`). -/
def fieldCount (m : Message) : Nat := m.length

/-- Modelled from the spec: the error kinds of §7, each recorded with
the offending field's name. -/
inductive BuildError where
  | insufficientInput (field : String)
  | invalidBoolean (field : String)
  | invalidInteger (field : String)
  | outOfRange (field : String)
  | stringLengthViolation (field : String)
  | insufficientGroupRepeats (field : String)
  deriving Repr, DecidableEq

/-! ## The builder traversal -/

/-- Inclusive lower bound of an integer kind of the given width and
signedness. -/
def intKindLo (width : Nat) (signed : Bool) : Int :=
  if signed then -(2 ^ (width - 1)) else 0

/-- Inclusive upper bound of an integer kind of the given width and
signedness. -/
def intKindHi (width : Nat) (signed : Bool) : Int :=
  if signed then 2 ^ (width - 1) - 1 else 2 ^ width - 1

/-- Modelled from the spec: a Bool scalar pops one token (failing with
`InsufficientInput` when none remains) and converts it, failing with
`InvalidBoolean` on any unrecognised literal (§4.1). -/
def buildBoolField (name : String) :
    List String → Except BuildError (MessageField × List String)
  | [] => .error (.insufficientInput name)
  | t :: rest =>
    match parseBool t with
    | some b => .ok (.boolValue name b, rest)
    | none => .error (.invalidBoolean name)

/-- Modelled from the spec: an integer scalar pops one token, fails with
`InvalidInteger` on non-numeric text and with `OutOfRange` when the
parsed value falls outside the kind's exact inclusive range; no
clamping (§4.1). -/
def buildIntField (name : String) (width : Nat) (signed : Bool) :
    List String → Except BuildError (MessageField × List String)
  | [] => .error (.insufficientInput name)
  | t :: rest =>
    match parseDecimal t with
    | none => .error (.invalidInteger name)
    | some v =>
      if intKindLo width signed ≤ v ∧ v ≤ intKindHi width signed then
        .ok (.intValue name width signed v, rest)
      else .error (.outOfRange name)

/-- Modelled from the spec: a String scalar pops one token and accepts
exactly the texts whose length lies within the inclusive bounds,
failing with `StringLengthViolation` otherwise (§4.1). -/
def buildStringField (name : String) (minLength maxLength : Nat) :
    List String → Except BuildError (MessageField × List String)
  | [] => .error (.insufficientInput name)
  | t :: rest =>
    if minLength ≤ t.length ∧ t.length ≤ maxLength then
      .ok (.stringValue name t, rest)
    else .error (.stringLengthViolation name)

mutual

/-- Modelled from the spec: one schema entry consumes tokens per its
kind (§4.1); a group consumes full repetitions while tokens remain and
the count is below `max_repeat`, then fails with
`InsufficientGroupRepeats` when fewer than `min_repeat` were built. -/
def buildField (d : FieldDescriptor) (tokens : List String) :
    Except BuildError (MessageField × List String) :=
  match d with
  | .boolField name => buildBoolField name tokens
  | .uint8Field name => buildIntField name 8 false tokens
  | .uint16Field name => buildIntField name 16 false tokens
  | .uint32Field name => buildIntField name 32 false tokens
  | .int8Field name => buildIntField name 8 true tokens
  | .int16Field name => buildIntField name 16 true tokens
  | .int32Field name => buildIntField name 32 true tokens
  | .stringField name mn mx => buildStringField name mn mx tokens
  | .groupField name children mn mx =>
    match buildGroupReps children mx tokens with
    | .error e => .error e
    | .ok (insts, rest) =>
      if insts.length < mn then .error (.insufficientGroupRepeats name)
      else .ok (.groupValue name insts, rest)
termination_by (sizeOf d, 0)
decreasing_by all_goals (simp_wf; omega)

/-- Modelled from the spec: the schema's entries are walked in order,
each consuming tokens; the first failure aborts the traversal (§4.1). -/
def buildFields (ds : List FieldDescriptor) (tokens : List String) :
    Except BuildError (Message × List String) :=
  match ds with
  | [] => .ok ([], tokens)
  | d :: rest =>
    match buildField d tokens with
    | .error e => .error e
    | .ok (f, tokens1) =>
      match buildFields rest tokens1 with
      | .error e => .error e
      | .ok (fs, tokens2) => .ok (f :: fs, tokens2)
termination_by (sizeOf ds, 0)
decreasing_by all_goals (simp_wf; omega)

/-- Modelled from the spec: "repeatedly attempt to consume one full
repetition while tokens remain and the accumulated repeat count is
below `max_repeat`" (§4.1); `remaining` counts down from `max_repeat`.
Each completed repetition becomes one group-instance entry, in the
order consumed. -/
def buildGroupReps (children : List FieldDescriptor) (remaining : Nat)
    (tokens : List String) :
    Except BuildError (List (List MessageField) × List String) :=
  match remaining, tokens with
  | 0, _ => .ok ([], tokens)
  | _ + 1, [] => .ok ([], [])
  | r + 1, t :: ts =>
    match buildFields children (t :: ts) with
    | .error e => .error e
    | .ok (inst, rest) =>
      match buildGroupReps children r rest with
      | .error e => .error e
      | .ok (insts, rest2) => .ok (inst :: insts, rest2)
termination_by (sizeOf children, remaining + 1)
decreasing_by all_goals (simp_wf; omega)

end


/-! ## Builder state machine -/

/-- Modelled from the spec: the builder holds the token sequence, an
optional error record, an optional in-progress result tree and whether
the result was already retrieved (§4.1, state machine of §4.1). -/
structure StringMessageBuilder where
  tokens : List String
  result : Option Message
  error : Option BuildError
  retrieved : Bool

/-- A fresh builder over a token sequence (the C++ constructor). -/
def newBuilder (tokens : List String) : StringMessageBuilder :=
  { tokens := tokens, result := none, error := none, retrieved := false }

/-- Modelled from the spec: `Traverse` walks the schema's top-level
fields over the builder's tokens, storing the message on success or
recording the first error (§4.1); leftover tokens are ignored (§9). -/
def traverseSchema (b : StringMessageBuilder) (d : Descriptor) :
    StringMessageBuilder :=
  match buildFields d.fields b.tokens with
  | .ok (fields, _) => { b with result := some fields, error := none }
  | .error e => { b with result := none, error := some e }

/-- Modelled from the spec: `GetMessage` returns the built message only
when traversal completed with no recorded error and the result has not
been previously retrieved; nothing otherwise (§4.1). -/
def getMessage (b : StringMessageBuilder) :
    Option Message × StringMessageBuilder :=
  match b.result, b.error, b.retrieved with
  | some m, none, false => (some m, { b with retrieved := true })
  | _, _, _ => (none, b)

/-- Modelled from the spec: `GetError` returns the recorded failure,
absent when none occurred (§4.1). -/
def getError (b : StringMessageBuilder) : Option BuildError := b.error

/-- The test fixture's `BuildMessage` helper: construct a builder over
the inputs, accept the descriptor, fetch the message. -/
def buildMessage (d : Descriptor) (inputs : List String) : Option Message :=
  (getMessage (traverseSchema (newBuilder inputs) d)).1

/-! ## The printer -/

/-- Two spaces of indentation per nesting level. -/
def indentStr (indent : Nat) : String := ⟨List.replicate (2 * indent) ' '⟩

/-- Canonical text of a boolean: always lowercase. -/
def boolText (b : Bool) : String := if b then "true" else "false"

mutual

/-- Modelled from the spec: each scalar renders as
`<field-name>: <canonical-text>\n` and each group renders every
repeated instance in order (§4.2). -/
def renderField (indent : Nat) (f : MessageField) : String :=
  match f with
  | .boolValue name b =>
    indentStr indent ++ name ++ ": " ++ boolText b ++ "\n"
  | .intValue name _ _ v =>
    indentStr indent ++ name ++ ": " ++ intDecimal v ++ "\n"
  | .stringValue name s =>
    indentStr indent ++ name ++ ": " ++ s ++ "\n"
  | .groupValue name insts => renderInstances indent name insts
termination_by sizeOf f

/-- Depth-first rendering of a sequence of field values, in order. -/
def renderFields (indent : Nat) (fs : List MessageField) : String :=
  match fs with
  | [] => ""
  | f :: rest => renderField indent f ++ renderFields indent rest
termination_by sizeOf fs

/-- Modelled from the spec: each group instance renders as
`<field-name> {\n`, the instance's fields indented one further level,
then `}\n` (§4.2). -/
def renderInstances (indent : Nat) (name : String)
    (insts : List (List MessageField)) : String :=
  match insts with
  | [] => ""
  | inst :: rest =>
    indentStr indent ++ name ++ " \x7b\n" ++ renderFields (indent + 1) inst ++
      indentStr indent ++ "\x7d\n" ++ renderInstances indent name rest
termination_by sizeOf insts

end

/-- The test fixture's `MessageToString`: render a message through the
printer at top level. -/
def messageToString (m : Message) : String := renderFields 0 m

/-! ## Decimal round-trip lemmas -/

theorem digitsVal_append_digit (cs : List Char) (c : Char) :
    digitsVal (cs ++ [c]) = 10 * digitsVal cs + (c.toNat - 48) := by
  simp [digitsVal, List.foldl_append]

theorem decDigitChar_toNat {m : Nat} (hm : m < 10) :
    (decDigitChar m).toNat = 48 + m := by
  interval_cases m <;> decide

theorem decDigitChar_isDigit {m : Nat} (hm : m < 10) :
    (decDigitChar m).isDigit = true := by
  interval_cases m <;> decide

/-- The digit run of `n` is nonempty, made of digit characters, and has
value `n`, when the fuel covers `n`. -/
theorem natDigitsAux_spec :
    ∀ fuel n, n < fuel →
      natDigitsAux fuel n ≠ [] ∧
      (∀ c ∈ natDigitsAux fuel n, c.isDigit = true) ∧
      digitsVal (natDigitsAux fuel n) = n := by
  intro fuel
  induction fuel with
  | zero => intro n h; omega
  | succ fuel ih =>
    intro n hn
    by_cases h10 : n < 10
    · refine ⟨ by simp [natDigitsAux, h10], ?_, ?_⟩
      · intro c hc
        simp only [natDigitsAux, if_pos h10, List.mem_singleton] at hc
        subst hc
        exact decDigitChar_isDigit h10
      · simp [natDigitsAux, h10, digitsVal, decDigitChar_toNat h10]
    · have hdiv : n / 10 < fuel := by
        have h1 : n / 10 < n := Nat.div_lt_self (by omega) (by omega)
        omega
      obtain ⟨ hne, hdig, hval⟩ := ih (n / 10) hdiv
      have hmod : n % 10 < 10 := Nat.mod_lt _ (by omega)
      refine ⟨ by simp [natDigitsAux, h10], ?_, ?_⟩
      · intro c hc
        simp only [natDigitsAux, if_neg h10, List.mem_append, List.mem_singleton] at hc
        rcases hc with hc | rfl
        · exact hdig c hc
        · exact decDigitChar_isDigit hmod
      · simp only [natDigitsAux, if_neg h10]
        rw [digitsVal_append_digit, hval, decDigitChar_toNat hmod]
        omega

/-- A digit character is not the minus sign. -/
theorem isDigit_ne_minus {c : Char} (h : c.isDigit = true) : c ≠ '-' := by
  intro hc
  subst hc
  simp [Char.isDigit] at h

/-- Parsing a nonempty all-digit character string yields its value. -/
theorem parseDecimal_mk_digits (ds : List Char) (hne : ds ≠ [])
    (hdig : ∀ c ∈ ds, c.isDigit = true) :
    parseDecimal ⟨ ds⟩ = some ((digitsVal ds : Int)) := by
  cases ds with
  | nil => exact absurd rfl hne
  | cons c cs =>
    have hc : c.isDigit = true := hdig c (List.mem_cons_self ..)
    have hall : (c :: cs).all Char.isDigit = true := by
      rw [List.all_eq_true]; intro x hx; exact hdig x hx
    unfold parseDecimal
    dsimp only
    rw [if_neg (isDigit_ne_minus hc), if_pos hall]

/-- Parsing a minus sign followed by digits yields the negated value. -/
theorem parseDecimal_neg_mk_digits (ds : List Char) (hne : ds ≠ [])
    (hdig : ∀ c ∈ ds, c.isDigit = true) :
    parseDecimal ⟨'-' :: ds⟩ = some (-(digitsVal ds : Int)) := by
  have hall : ds.all Char.isDigit = true := by
    rw [List.all_eq_true]; intro x hx; exact hdig x hx
  have h0 : parseDecimal ⟨'-' :: ds⟩ =
      if ds ≠ [] ∧ ds.all Char.isDigit = true then
        some (-(digitsVal ds : Int))
      else none := rfl
  rw [h0, if_pos ⟨hne, hall⟩]

theorem parseDecimal_natDecimal (n : Nat) :
    parseDecimal (natDecimal n) = some ((n : Int)) := by
  obtain ⟨ hne, hdig, hval⟩ := natDigitsAux_spec (n + 1) n (by omega)
  rw [natDecimal, parseDecimal_mk_digits _ hne hdig, hval]

/-- Parsing the canonical decimal text of an integer recovers it. -/
theorem parseDecimal_intDecimal (v : Int) : parseDecimal (intDecimal v) = some v := by
  unfold intDecimal
  by_cases hv : v < 0
  · rw [if_pos hv]
    obtain ⟨ hne, hdig, hval⟩ :=
      natDigitsAux_spec ((-v).toNat + 1) (-v).toNat (by omega)
    have hmk : "-" ++ natDecimal (-v).toNat =
        (⟨'-' :: natDigitsAux ((-v).toNat + 1) (-v).toNat⟩ : String) := by
      apply String.ext
      rfl
    rw [hmk, parseDecimal_neg_mk_digits _ hne hdig, hval]
    congr 1
    omega
  · rw [if_neg hv, parseDecimal_natDecimal]
    congr 1
    omega

/-! ## Builder lemmas -/

/-- The message fetched from a one-shot build is the successful
traversal's field list. -/
theorem buildMessage_eq (d : Descriptor) (inputs : List String) :
    buildMessage d inputs = ((buildFields d.fields inputs).map Prod.fst).toOption := by
  unfold buildMessage getMessage traverseSchema newBuilder
  cases h : buildFields d.fields inputs with
  | ok p => cases p; rfl
  | error e => rfl

/-- The error recorded by a one-shot traversal is the traversal's
error, when it has one. -/
theorem getError_eq (d : Descriptor) (inputs : List String) :
    getError (traverseSchema (newBuilder inputs) d) =
      match buildFields d.fields inputs with
      | .error e => some e
      | .ok _ => none := by
  unfold getError traverseSchema newBuilder
  cases h : buildFields d.fields inputs with
  | ok p => rfl
  | error e => rfl

/-- A successful traversal yields one field value per schema entry. -/
theorem buildFields_length (ds : List FieldDescriptor) :
    ∀ tokens fs rest, buildFields ds tokens = .ok (fs, rest) →
      fs.length = ds.length := by
  induction ds with
  | nil =>
    intro tokens fs rest h
    rw [buildFields] at h
    cases h
    rfl
  | cons d ds ih =>
    intro tokens fs rest h
    rw [buildFields] at h
    cases h1 : buildField d tokens with
    | error e => rw [h1] at h; simp at h
    | ok p =>
      obtain ⟨f, tokens1⟩ := p
      rw [h1] at h
      cases h2 : buildFields ds tokens1 with
      | error e => simp only [h2] at h; exact Except.noConfusion h
      | ok q =>
        obtain ⟨fs2, tokens2⟩ := q
        simp only [h2, Except.ok.injEq, Prod.mk.injEq] at h
        obtain ⟨h3, h4⟩ := h
        subst h3
        simp [ih tokens1 fs2 tokens2 h2]

/-- The repetition loop stops only at the repeat bound or at token
exhaustion: a successful loop never builds more than `remaining`
instances, and builds fewer only when the leftover token list is
empty. -/
theorem buildGroupReps_length (children : List FieldDescriptor) :
    ∀ remaining tokens insts rest,
      buildGroupReps children remaining tokens = .ok (insts, rest) →
        insts.length ≤ remaining ∧ (insts.length = remaining ∨ rest = []) := by
  intro remaining
  induction remaining with
  | zero =>
    intro tokens insts rest h
    rw [buildGroupReps] at h
    cases h
    simp
  | succ r ih =>
    intro tokens insts rest h
    match tokens with
    | [] =>
      rw [buildGroupReps] at h
      cases h
      simp
    | t :: ts =>
      rw [buildGroupReps] at h
      cases h1 : buildFields children (t :: ts) with
      | error e => rw [h1] at h; simp at h
      | ok p =>
        obtain ⟨inst, rest1⟩ := p
        rw [h1] at h
        cases h2 : buildGroupReps children r rest1 with
        | error e => simp only [h2] at h; exact Except.noConfusion h
        | ok q =>
          obtain ⟨insts2, rest2⟩ := q
          simp only [h2, Except.ok.injEq, Prod.mk.injEq] at h
          obtain ⟨h3, h4⟩ := h
          subst h3
          obtain ⟨hle, hor⟩ := ih rest1 insts2 rest2 h2
          refine ⟨by simpa using hle, ?_⟩
          rcases hor with heq | hrest
          · left; simp [heq]
          · right; rw [← h4]; exact hrest

/-! ## Test fixtures (from `StringMessageBuilderTest.cpp`) -/

/-- The 13-field descriptor of `testSimpleBuilder`. -/
def simpleFields : List FieldDescriptor :=
  [.boolField "bool1", .boolField "bool2", .boolField "bool3",
   .boolField "bool4", .boolField "bool5", .boolField "bool6",
   .uint8Field "uint8", .uint16Field "uint16", .uint32Field "uint32",
   .int8Field "int8", .int16Field "int16", .int32Field "int32",
   .stringField "string" 0 32]

/-- The `testSimpleBuilder` descriptor. -/
def simpleDescriptor : Descriptor := ⟨"Test Descriptor", simpleFields⟩

/-- The `testSimpleBuilder` inputs. -/
def simpleInputs : List String :=
  ["true", "false", "1", "0", "TRUE", "FALSE", "255", "300", "66000",
   "-128", "-300", "-66000", "foo"]

/-- The message `testSimpleBuilder` expects to build. -/
def simpleMessage : Message :=
  [.boolValue "bool1" true, .boolValue "bool2" false,
   .boolValue "bool3" true, .boolValue "bool4" false,
   .boolValue "bool5" true, .boolValue "bool6" false,
   .intValue "uint8" 8 false 255, .intValue "uint16" 16 false 300,
   .intValue "uint32" 32 false 66000, .intValue "int8" 8 true (-128),
   .intValue "int16" 16 true (-300), .intValue "int32" 32 true (-66000),
   .stringValue "string" "foo"]

/-- The rendering `testSimpleBuilder` expects. -/
def simpleExpected : String :=
  "bool1: true\nbool2: false\nbool3: true\nbool4: false\nbool5: true\n" ++
  "bool6: false\nuint8: 255\nuint16: 300\nuint32: 66000\n" ++
  "int8: -128\nint16: -300\nint32: -66000\nstring: foo\n"

/-- The group child schema of `testBuilderWithGroups`: a bool and a
uint8. -/
def groupChildFields : List FieldDescriptor :=
  [.boolField "bool", .uint8Field "uint8"]

/-- The `testBuilderWithGroups` descriptor: one group with repeats in
[0, 5]. -/
def groupDescriptor : Descriptor :=
  ⟨"Test Descriptor", [.groupField "group" groupChildFields 0 5]⟩

/-- The single-repetition inputs of `testBuilderWithGroups`. -/
def groupInputs1 : List String := ["true", "10"]

/-- The message expected from the single-repetition group inputs. -/
def groupMessage1 : Message :=
  [.groupValue "group" [[.boolValue "bool" true, .intValue "uint8" 8 false 10]]]

/-- The rendering expected from the single-repetition group inputs. -/
def groupExpected1 : String := "group \x7b\n  bool: true\n  uint8: 10\n\x7d\n"

/-- The three-repetition inputs of `testBuilderWithGroups`. -/
def groupInputs2 : List String :=
  ["true", "10", "true", "42", "false", "240"]

/-- The message expected from the three-repetition group inputs: one
group field value holding three instances, in consumed order. -/
def groupMessage2 : Message :=
  [.groupValue "group"
    [[.boolValue "bool" true, .intValue "uint8" 8 false 10],
     [.boolValue "bool" true, .intValue "uint8" 8 false 42],
     [.boolValue "bool" false, .intValue "uint8" 8 false 240]]]

/-- The rendering expected from the three-repetition group inputs. -/
def groupExpected2 : String :=
  "group \x7b\n  bool: true\n  uint8: 10\n\x7d\n" ++
  "group \x7b\n  bool: true\n  uint8: 42\n\x7d\n" ++
  "group \x7b\n  bool: false\n  uint8: 240\n\x7d\n"

/-! ## Concrete evaluations -/

theorem buildFields_nil (tokens : List String) :
    buildFields [] tokens = .ok ([], tokens) := by
  rw [buildFields]

theorem buildFields_cons_ok {d : FieldDescriptor} {ds : List FieldDescriptor}
    {tokens tokens1 tokens2 : List String} {f : MessageField} {fs : Message}
    (h1 : buildField d tokens = .ok (f, tokens1))
    (h2 : buildFields ds tokens1 = .ok (fs, tokens2)) :
    buildFields (d :: ds) tokens = .ok (f :: fs, tokens2) := by
  rw [buildFields, h1]
  simp only [h2]

theorem buildGroupReps_exhausted (children : List FieldDescriptor) (r : Nat) :
    buildGroupReps children (r + 1) [] = .ok ([], []) := by
  rw [buildGroupReps]

theorem buildGroupReps_step {children : List FieldDescriptor} {r : Nat}
    {t : String} {ts rest1 rest2 : List String} {inst : Message}
    {insts : List (List MessageField)}
    (h1 : buildFields children (t :: ts) = .ok (inst, rest1))
    (h2 : buildGroupReps children r rest1 = .ok (insts, rest2)) :
    buildGroupReps children (r + 1) (t :: ts) = .ok (inst :: insts, rest2) := by
  rw [buildGroupReps, h1]
  simp only [h2]

theorem buildField_group_ok {name : String} {children : List FieldDescriptor}
    {mn mx : Nat} {tokens rest : List String} {insts : List (List MessageField)}
    (h : buildGroupReps children mx tokens = .ok (insts, rest))
    (hmn : mn ≤ insts.length) :
    buildField (.groupField name children mn mx) tokens =
      .ok (.groupValue name insts, rest) := by
  rw [buildField, h]
  simp only [Nat.not_lt.mpr hmn, if_neg, if_false, Nat.lt_irrefl]

theorem eval_simple_build :
    buildFields simpleFields simpleInputs = .ok (simpleMessage, []) := by
  refine buildFields_cons_ok (by rw [buildField]; exact rfl) ?_
  refine buildFields_cons_ok (by rw [buildField]; exact rfl) ?_
  refine buildFields_cons_ok (by rw [buildField]; exact rfl) ?_
  refine buildFields_cons_ok (by rw [buildField]; exact rfl) ?_
  refine buildFields_cons_ok (by rw [buildField]; exact rfl) ?_
  refine buildFields_cons_ok (by rw [buildField]; exact rfl) ?_
  refine buildFields_cons_ok (by rw [buildField]; exact rfl) ?_
  refine buildFields_cons_ok (by rw [buildField]; exact rfl) ?_
  refine buildFields_cons_ok (by rw [buildField]; exact rfl) ?_
  refine buildFields_cons_ok (by rw [buildField]; exact rfl) ?_
  refine buildFields_cons_ok (by rw [buildField]; exact rfl) ?_
  refine buildFields_cons_ok (by rw [buildField]; exact rfl) ?_
  refine buildFields_cons_ok (by rw [buildField]; exact rfl) ?_
  exact buildFields_nil _

theorem eval_simple_message :
    buildMessage simpleDescriptor simpleInputs = some simpleMessage := by
  rw [buildMessage_eq]
  rw [show simpleDescriptor.fields = simpleFields from rfl, eval_simple_build]
  rfl

theorem eval_simple_render : messageToString simpleMessage = simpleExpected := by
  simp only [simpleMessage, messageToString, renderFields, renderField,
    renderInstances]
  decide

theorem eval_group_build1 :
    buildFields groupDescriptor.fields groupInputs1 = .ok (groupMessage1, []) := by
  show buildFields [.groupField "group" groupChildFields 0 5] groupInputs1 = _
  refine buildFields_cons_ok (buildField_group_ok ?_ (Nat.zero_le _))
    (buildFields_nil _)
  refine buildGroupReps_step ?_ (buildGroupReps_exhausted _ _)
  refine buildFields_cons_ok (by rw [buildField]; exact rfl) ?_
  refine buildFields_cons_ok (by rw [buildField]; exact rfl) ?_
  exact buildFields_nil _

theorem eval_group_message1 :
    buildMessage groupDescriptor groupInputs1 = some groupMessage1 := by
  rw [buildMessage_eq, eval_group_build1]
  rfl

theorem eval_group_render1 : messageToString groupMessage1 = groupExpected1 := by
  simp only [groupMessage1, messageToString, renderFields, renderField,
    renderInstances]
  decide

theorem eval_group_build2 :
    buildFields groupDescriptor.fields groupInputs2 = .ok (groupMessage2, []) := by
  have i1 : buildFields groupChildFields
      ["true", "10", "true", "42", "false", "240"] =
      .ok ([.boolValue "bool" true, .intValue "uint8" 8 false 10],
        ["true", "42", "false", "240"]) := by
    refine buildFields_cons_ok (by rw [buildField]; exact rfl) ?_
    refine buildFields_cons_ok (by rw [buildField]; exact rfl) ?_
    exact buildFields_nil _
  have i2 : buildFields groupChildFields ["true", "42", "false", "240"] =
      .ok ([.boolValue "bool" true, .intValue "uint8" 8 false 42],
        ["false", "240"]) := by
    refine buildFields_cons_ok (by rw [buildField]; exact rfl) ?_
    refine buildFields_cons_ok (by rw [buildField]; exact rfl) ?_
    exact buildFields_nil _
  have i3 : buildFields groupChildFields ["false", "240"] =
      .ok ([.boolValue "bool" false, .intValue "uint8" 8 false 240], []) := by
    refine buildFields_cons_ok (by rw [buildField]; exact rfl) ?_
    refine buildFields_cons_ok (by rw [buildField]; exact rfl) ?_
    exact buildFields_nil _
  have g : buildGroupReps groupChildFields 5 groupInputs2 =
      .ok ([[.boolValue "bool" true, .intValue "uint8" 8 false 10],
        [.boolValue "bool" true, .intValue "uint8" 8 false 42],
        [.boolValue "bool" false, .intValue "uint8" 8 false 240]], []) :=
    buildGroupReps_step i1 (buildGroupReps_step i2
      (buildGroupReps_step i3 (buildGroupReps_exhausted _ _)))
  show buildFields [.groupField "group" groupChildFields 0 5] groupInputs2 = _
  exact buildFields_cons_ok (buildField_group_ok g (Nat.zero_le _))
    (buildFields_nil _)

theorem eval_group_message2 :
    buildMessage groupDescriptor groupInputs2 = some groupMessage2 := by
  rw [buildMessage_eq, eval_group_build2]
  rfl

theorem eval_group_render2 : messageToString groupMessage2 = groupExpected2 := by
  simp only [groupMessage2, messageToString, renderFields, renderField,
    renderInstances]
  decide

/-! ## Single-field fixtures and scalar characterizations -/

/-- The `testBoolFailure` descriptor. -/
def boolDescriptor : Descriptor := ⟨"Test Descriptor", [.boolField "bool1"]⟩

/-- The `testUIntFailure` descriptor. -/
def uint8Descriptor : Descriptor := ⟨"Test Descriptor", [.uint8Field "uint8"]⟩

/-- The `testIntFailure` descriptor. -/
def int8Descriptor : Descriptor := ⟨"Test Descriptor", [.int8Field "int8"]⟩

/-- The `testStringFailure` descriptor. -/
def stringDescriptor : Descriptor := ⟨"Test Descriptor", [.stringField "string" 0 10]⟩

theorem buildFields_cons_error {d : FieldDescriptor} {ds : List FieldDescriptor}
    {tokens : List String} {e : BuildError}
    (h1 : buildField d tokens = .error e) :
    buildFields (d :: ds) tokens = .error e := by
  rw [buildFields, h1]

/-- Building a lone bool field is exactly boolean conversion of the lone
token. -/
theorem buildFields_single_bool (name t : String) :
    buildFields [.boolField name] [t] =
      match parseBool t with
      | some b => .ok ([.boolValue name b], [])
      | none => .error (.invalidBoolean name) := by
  cases hp : parseBool t with
  | some b =>
    refine buildFields_cons_ok ?_ (buildFields_nil _)
    rw [buildField]
    show buildBoolField name [t] = _
    rw [buildBoolField, hp]
  | none =>
    refine buildFields_cons_error ?_
    rw [buildField]
    show buildBoolField name [t] = _
    rw [buildBoolField, hp]

/-- Acceptance of a boolean token is exactly case-insensitive membership
in the four literals. -/
theorem parseBool_isSome_iff (t : String) :
    (parseBool t).isSome = true ↔
      (lowerStr t = "true".data ∨ lowerStr t = "false".data ∨
       lowerStr t = "1".data ∨ lowerStr t = "0".data) := by
  unfold parseBool
  split_ifs with h1 h2
  · simp only [Option.isSome_some, true_iff]
    tauto
  · simp only [Option.isSome_some, true_iff]
    tauto
  · simp only [Option.isSome_none, Bool.false_eq_true, false_iff]
    tauto

/-! ## Additional printer fixture: nested groups -/

/-- A depth-two message exercising per-level indentation. -/
def nestedMessage : Message :=
  [.groupValue "outer" [[.groupValue "inner" [[.boolValue "b" true]]]]]

/-- The expected depth-two rendering: two spaces per nesting level. -/
def nestedExpected : String :=
  "outer \x7b\n  inner \x7b\n    b: true\n  \x7d\n\x7d\n"

theorem eval_nested_render : messageToString nestedMessage = nestedExpected := by
  simp only [nestedMessage, messageToString, renderFields, renderField,
    renderInstances]
  decide

/-- Building a lone field and fetching the message/error, when the lone
token is rejected. -/
theorem single_field_error {d : FieldDescriptor} {nm t : String} {e : BuildError}
    (h : buildField d [t] = .error e) :
    buildMessage ⟨nm, [d]⟩ [t] = none ∧
    getError (traverseSchema (newBuilder [t]) ⟨nm, [d]⟩) = some e := by
  have hb : buildFields [d] [t] = .error e := buildFields_cons_error h
  constructor
  · rw [buildMessage_eq]
    rw [show (Descriptor.mk nm [d]).fields = [d] from rfl, hb]
    rfl
  · rw [getError_eq]
    rw [show (Descriptor.mk nm [d]).fields = [d] from rfl, hb]

/-! ## The claims -/

/-- C1: for every group field and token sequence the builder consumes
full repetitions while tokens remain and the accumulated repeat count
is below `max_repeat` (a successful repetition loop stops only at the
bound or at token exhaustion); in particular the test group — a 2-field
child schema with `max_repeat` 5 — given tokens supplying 3 full
repetitions yields a message containing 3 group instances, rendered in
the order consumed. -/
theorem claim_group_repetition :
    (∀ (children : List FieldDescriptor) (remaining : Nat)
       (tokens rest : List String) (insts : List (List MessageField)),
       buildGroupReps children remaining tokens = .ok (insts, rest) →
         insts.length ≤ remaining ∧
         (insts.length = remaining ∨ rest = [])) ∧
    buildMessage groupDescriptor groupInputs2 = some groupMessage2 ∧
    messageToString groupMessage2 = groupExpected2 := by
  refine ⟨?_, eval_group_message2, eval_group_render2⟩
  intro children remaining tokens rest insts h
  exact buildGroupReps_length children remaining tokens insts rest h

/-- C2: every successful build yields exactly one field value per
schema entry — generally, and concretely for the 13-scalar schema
(count 13) and the single-group schema (count 1, with either 1 or 3
repeated instances in the group's payload). -/
theorem claim_field_count :
    (∀ (d : Descriptor) (inputs : List String) (m : Message),
       buildMessage d inputs = some m → fieldCount m = d.fields.length) ∧
    (buildMessage simpleDescriptor simpleInputs = some simpleMessage ∧
     fieldCount simpleMessage = 13 ∧ simpleDescriptor.fields.length = 13) ∧
    (buildMessage groupDescriptor groupInputs1 = some groupMessage1 ∧
     fieldCount groupMessage1 = 1) ∧
    (buildMessage groupDescriptor groupInputs2 = some groupMessage2 ∧
     fieldCount groupMessage2 = 1) := by
  refine ⟨?_, ⟨eval_simple_message, rfl, rfl⟩,
    ⟨eval_group_message1, rfl⟩, ⟨eval_group_message2, rfl⟩⟩
  intro d inputs m h
  rw [buildMessage_eq] at h
  cases hb : buildFields d.fields inputs with
  | error e =>
    rw [hb] at h
    simp [Except.map, Except.toOption] at h
  | ok p =>
    obtain ⟨fs, rest⟩ := p
    rw [hb] at h
    simp only [Except.map, Except.toOption, Option.some.injEq] at h
    subst h
    exact buildFields_length d.fields inputs fs rest hb

/-- C3: when traversal records a failure, `GetMessage` yields nothing,
no matter how much succeeded before; a message comes back only from a
traversal with no recorded error that was not previously retrieved,
a second fetch yields nothing, and fetching from a fresh builder
(no traversal) yields nothing.  Concretely, the failed bool build on
token "2" yields nothing. -/
theorem claim_getMessage_on_failure :
    (∀ (d : Descriptor) (inputs : List String) (e : BuildError),
       buildFields d.fields inputs = .error e →
         buildMessage d inputs = none ∧
         getError (traverseSchema (newBuilder inputs) d) = some e) ∧
    (∀ (b : StringMessageBuilder) (m : Message) (b' : StringMessageBuilder),
       getMessage b = (some m, b') →
         b.error = none ∧ b.result = some m ∧ b.retrieved = false) ∧
    (∀ b : StringMessageBuilder, (getMessage (getMessage b).2).1 = none) ∧
    (∀ inputs : List String, (getMessage (newBuilder inputs)).1 = none) ∧
    buildMessage boolDescriptor ["2"] = none := by
  refine ⟨?_, ?_, ?_, fun inputs => rfl, ?_⟩
  · intro d inputs e h
    constructor
    · rw [buildMessage_eq, h]
      rfl
    · rw [getError_eq, h]
  · intro b m b' h
    rcases b with ⟨toks, res, err, retr⟩
    cases res <;> cases err <;> cases retr <;> simp [getMessage] at h
    simp [h]
  · intro b
    rcases b with ⟨toks, res, err, retr⟩
    cases res <;> cases err <;> cases retr <;> rfl
  · rw [buildMessage_eq,
      show boolDescriptor.fields = [FieldDescriptor.boolField "bool1"] from rfl,
      buildFields_single_bool]
    rfl

/-- C4: a bool token converts successfully exactly when it is,
case-insensitively, one of "true", "false", "1", "0"; "TRUE" and
"FALSE" succeed, and any other token ("2", "foo") fails the build with
`InvalidBoolean`. -/
theorem claim_bool_conversion :
    (∀ t : String,
       ((buildMessage boolDescriptor [t]).isSome = true ↔
         (lowerStr t = "true".data ∨ lowerStr t = "false".data ∨
          lowerStr t = "1".data ∨ lowerStr t = "0".data)) ∧
       (parseBool t = none →
         getError (traverseSchema (newBuilder [t]) boolDescriptor) =
           some (.invalidBoolean "bool1"))) ∧
    buildMessage boolDescriptor ["TRUE"] = some [.boolValue "bool1" true] ∧
    buildMessage boolDescriptor ["FALSE"] = some [.boolValue "bool1" false] ∧
    buildMessage boolDescriptor ["2"] = none ∧
    buildMessage boolDescriptor ["foo"] = none := by
  have hfields : boolDescriptor.fields = [FieldDescriptor.boolField "bool1"] := rfl
  refine ⟨?_, ?_, ?_, ?_, ?_⟩
  · intro t
    constructor
    · have hsame : (buildMessage boolDescriptor [t]).isSome =
          (parseBool t).isSome := by
        rw [buildMessage_eq, hfields, buildFields_single_bool]
        cases parseBool t <;> rfl
      rw [hsame]
      exact parseBool_isSome_iff t
    · intro hp
      rw [getError_eq, hfields, buildFields_single_bool, hp]
  · rw [buildMessage_eq, hfields, buildFields_single_bool]
    rfl
  · rw [buildMessage_eq, hfields, buildFields_single_bool]
    rfl
  · rw [buildMessage_eq, hfields, buildFields_single_bool]
    rfl
  · rw [buildMessage_eq, hfields, buildFields_single_bool]
    rfl

/-- C5: an integer token that is not a base-10 integer fails with
`InvalidInteger`; one that parses but falls outside the kind's exact
inclusive range fails with `OutOfRange`; one in range is stored exactly
(never clamped).  Concretely: "a", "-1", "256" fail a UInt8 build and
"a", "-129", "128" fail an Int8 build with those errors. -/
theorem claim_int_conversion :
    (∀ (name : String) (width : Nat) (signed : Bool) (t : String)
       (rest : List String),
       parseDecimal t = none →
         buildIntField name width signed (t :: rest) =
           .error (.invalidInteger name)) ∧
    (∀ (name : String) (width : Nat) (signed : Bool) (t : String)
       (rest : List String) (v : Int),
       parseDecimal t = some v →
       ¬(intKindLo width signed ≤ v ∧ v ≤ intKindHi width signed) →
         buildIntField name width signed (t :: rest) =
           .error (.outOfRange name)) ∧
    (∀ (name : String) (width : Nat) (signed : Bool) (t : String)
       (rest : List String) (v : Int),
       parseDecimal t = some v →
       intKindLo width signed ≤ v → v ≤ intKindHi width signed →
         buildIntField name width signed (t :: rest) =
           .ok (.intValue name width signed v, rest)) ∧
    (buildMessage uint8Descriptor ["a"] = none ∧
     getError (traverseSchema (newBuilder ["a"]) uint8Descriptor) =
       some (.invalidInteger "uint8")) ∧
    (buildMessage uint8Descriptor ["-1"] = none ∧
     getError (traverseSchema (newBuilder ["-1"]) uint8Descriptor) =
       some (.outOfRange "uint8")) ∧
    (buildMessage uint8Descriptor ["256"] = none ∧
     getError (traverseSchema (newBuilder ["256"]) uint8Descriptor) =
       some (.outOfRange "uint8")) ∧
    (buildMessage int8Descriptor ["-129"] = none ∧
     getError (traverseSchema (newBuilder ["-129"]) int8Descriptor) =
       some (.outOfRange "int8")) ∧
    (buildMessage int8Descriptor ["128"] = none ∧
     getError (traverseSchema (newBuilder ["128"]) int8Descriptor) =
       some (.outOfRange "int8")) := by
  refine ⟨?_, ?_, ?_,
    single_field_error (by rw [buildField]; exact rfl),
    single_field_error (by rw [buildField]; exact rfl),
    single_field_error (by rw [buildField]; exact rfl),
    single_field_error (by rw [buildField]; exact rfl),
    single_field_error (by rw [buildField]; exact rfl)⟩
  · intro name width signed t rest hp
    rw [buildIntField, hp]
  · intro name width signed t rest v hp hno
    rw [buildIntField, hp]
    dsimp only
    rw [if_neg hno]
  · intro name width signed t rest v hp h1 h2
    rw [buildIntField, hp]
    dsimp only
    rw [if_pos ⟨h1, h2⟩]

/-- C6: for every integer kind and every in-range value (bounds
included), building from the value's canonical base-10 text succeeds
storing that exact value, and the printer renders the field back to the
same decimal text, including a leading minus for negatives. -/
theorem claim_int_roundtrip (name : String) (width : Nat) (signed : Bool)
    (v : Int) (rest : List String)
    (h1 : intKindLo width signed ≤ v) (h2 : v ≤ intKindHi width signed) :
    buildIntField name width signed (intDecimal v :: rest) =
      .ok (.intValue name width signed v, rest) ∧
    messageToString [MessageField.intValue name width signed v] =
      name ++ ": " ++ intDecimal v ++ "\n" := by
  constructor
  · rw [buildIntField, parseDecimal_intDecimal]
    dsimp only
    rw [if_pos ⟨h1, h2⟩]
  · rw [messageToString, renderFields, renderField, renderFields]
    rw [show indentStr 0 = "" from rfl]
    rw [String.append_empty, String.empty_append]

/-- Witness for C6 at the Int8 lower bound: token "-128" builds and
renders back as "int8: -128". -/
theorem claim_int_roundtrip_witness :
    buildIntField "int8" 8 true ["-128"] =
      .ok (.intValue "int8" 8 true (-128), []) ∧
    messageToString [MessageField.intValue "int8" 8 true (-128)] =
      "int8: -128\n" := by
  have h := claim_int_roundtrip "int8" 8 true (-128) [] (by decide) (by decide)
  have hd : intDecimal (-128) = "-128" := by decide
  rw [hd] at h
  exact ⟨h.1, h.2.trans rfl⟩

/-- C7: a string token is accepted exactly when its length lies within
the inclusive bounds, and is rendered verbatim; otherwise the build
fails with `StringLengthViolation` — concretely the 26-character token
against bounds [0, 10]. -/
theorem claim_string_length :
    (∀ (name : String) (mn mx : Nat) (t : String) (rest : List String),
       mn ≤ t.length → t.length ≤ mx →
         buildStringField name mn mx (t :: rest) =
           .ok (.stringValue name t, rest) ∧
         messageToString [MessageField.stringValue name t] =
           name ++ ": " ++ t ++ "\n") ∧
    (∀ (name : String) (mn mx : Nat) (t : String) (rest : List String),
       ¬(mn ≤ t.length ∧ t.length ≤ mx) →
         buildStringField name mn mx (t :: rest) =
           .error (.stringLengthViolation name)) ∧
    buildMessage stringDescriptor ["this is a very long string"] = none ∧
    getError (traverseSchema (newBuilder ["this is a very long string"])
      stringDescriptor) = some (.stringLengthViolation "string") := by
  have hconc := @single_field_error (.stringField "string" 0 10)
    "Test Descriptor" "this is a very long string"
    (.stringLengthViolation "string") (by rw [buildField]; exact rfl)
  refine ⟨?_, ?_, hconc.1, hconc.2⟩
  · intro name mn mx t rest h1 h2
    constructor
    · rw [buildStringField, if_pos ⟨h1, h2⟩]
    · rw [messageToString, renderFields, renderField, renderFields]
      rw [show indentStr 0 = "" from rfl]
      rw [String.append_empty, String.empty_append]
  · intro name mn mx t rest hno
    rw [buildStringField, if_neg hno]

/-- C8: the printer renders scalars as `name: value\n` and each group
instance as `name` + open brace, children indented two spaces per
nesting level, then a close brace line, concatenated in schema order
with no other separators; booleans render lowercase regardless of the
literal ("1", "TRUE", ...) that produced them — checked bit-exactly on
the test fixtures and on a depth-two nesting. -/
theorem claim_printer_format :
    (buildMessage simpleDescriptor simpleInputs = some simpleMessage ∧
     messageToString simpleMessage = simpleExpected) ∧
    (buildMessage groupDescriptor groupInputs1 = some groupMessage1 ∧
     messageToString groupMessage1 = groupExpected1) ∧
    messageToString nestedMessage = nestedExpected :=
  ⟨⟨eval_simple_message, eval_simple_render⟩,
   ⟨eval_group_message1, eval_group_render1⟩,
   eval_nested_render⟩

set_option maxRecDepth 20000 in
/-- C10: the rendered text of a built message contains only field names
and values: building is unaffected by the descriptor's own name, and
the name "Test Descriptor" appears nowhere in the test renderings. -/
theorem claim_descriptor_name_unused :
    (∀ (nm nm' : String) (fieldList : List FieldDescriptor)
       (inputs : List String),
       buildMessage ⟨nm, fieldList⟩ inputs =
         buildMessage ⟨nm', fieldList⟩ inputs) ∧
    ¬ List.IsInfix "Test Descriptor".data simpleExpected.data ∧
    ¬ List.IsInfix "Test Descriptor".data groupExpected1.data ∧
    ¬ List.IsInfix "Test Descriptor".data groupExpected2.data ∧
    (buildMessage simpleDescriptor simpleInputs = some simpleMessage ∧
     messageToString simpleMessage = simpleExpected) ∧
    (buildMessage groupDescriptor groupInputs1 = some groupMessage1 ∧
     messageToString groupMessage1 = groupExpected1) := by
  refine ⟨?_, by decide, by decide, by decide,
    ⟨eval_simple_message, eval_simple_render⟩,
    ⟨eval_group_message1, eval_group_render1⟩⟩
  intro nm nm' fieldList inputs
  rw [buildMessage_eq, buildMessage_eq]

end OlaRdm
